import Mathlib

/-!
Verification of the Cityworks synchronization script
(`CityworksConnection/connect_to_cityworks.py`).

The script copies flagged service-request records from an ArcGIS feature
layer into Cityworks and writes status flags back.  The development below
is a shallow embedding of the script's pure decision logic:

* JSON / attribute values are modelled by `Value` (string, integer, null);
* a feature's attribute dictionary is an association list with Python
  dict semantics (`lookupD` = `d[k]`, `dictSet` = `d[k] = v`, first
  occurrence replaced in place, new keys appended);
* each external HTTP exchange is a parameter: the Cityworks `Create`
  response is a function from the submitted payload to an optional
  `RequestId`, attachment/comment calls yield a `StatusResp`;
* Python exceptions that the script does not catch are modelled with
  `Except String`, the error string naming the exception class;
* the per-layer batch of `main` (query flagged rows, submit, copy
  attachments, flip flag, apply edits) is `layerPass`; the related-record
  phase is `relatedPass`.
-/

namespace CW

/-- A JSON / attribute value as the script sees it: a string, an integer
(`Status`, `ProblemSid`, object ids, coordinates) or JSON null
(Python `None`). -/
inductive Value where
  | str : String → Value
  | num : Int → Value
  | null : Value
deriving DecidableEq

/-- Python `str()` on a `Value` (used by `"{}".format(x)` and `str(x)`). -/
def pyStr : Value → String
  | Value.str s => s
  | Value.num n => toString n
  | Value.null => "None"

/-- An ASCII lower-case letter mapped to upper case (Python `.upper()`
acts per character; the script's field data is ASCII). -/
def chUpper (c : Char) : Char :=
  if 'a' ≤ c ∧ c ≤ 'z' then Char.ofNat (c.toNat - 32) else c

/-- Python `s.upper()`. -/
def pyUpper (s : String) : String := String.mk (s.data.map chUpper)

/-- Python whitespace, as stripped by `s.strip()`. -/
def chIsSpace (c : Char) : Bool :=
  c == ' ' || c == '\t' || c == '\n' || c == '\r' || c == '\x0b' || c == '\x0c'

/-- Python `s.strip()`: whitespace removed from both ends. -/
def pyStrip (s : String) : String :=
  String.mk (((s.data.dropWhile chIsSpace).reverse.dropWhile chIsSpace).reverse)

/-- Decimal digit value of a character, if any. -/
def digitVal (c : Char) : Option Nat :=
  if '0' ≤ c ∧ c ≤ '9' then some (c.toNat - 48) else none

/-- Accumulating decimal parser: `none` until a digit is seen, `none`
forever after a non-digit. -/
def parseNat : List Char → Option Nat → Option Nat
  | [], acc => acc
  | c :: cs, acc =>
    match digitVal c with
    | none => none
    | some d => parseNat cs (some ((acc.getD 0) * 10 + d))

/-- Python `int(s)` on a string: an optional sign followed by at least one
digit; anything else raises `ValueError` (modelled as `none`). -/
def strToInt (s : String) : Option Int :=
  match s.data with
  | '-' :: rest => (parseNat rest none).map (fun n => -(n : Int))
  | '+' :: rest => (parseNat rest none).map (fun n => (n : Int))
  | l => (parseNat l none).map (fun n => (n : Int))

/-- Python `int()` on a `Value`: integers pass through, strings are
parsed, anything else (here: null) raises (modelled as `none`). -/
def pyInt : Value → Option Int
  | Value.num n => some n
  | Value.str s => strToInt s
  | Value.null => none

/-- Python dict lookup `d[k]` on an association list: `none` models a
`KeyError`. -/
def lookupD {α : Type} : List (String × α) → String → Option α
  | [], _ => none
  | (k', v) :: rest, k => if k' = k then some v else lookupD rest k

/-- Python dict assignment `d[k] = v`: replace the entry in place if the
key is present, append otherwise (insertion order preserved). -/
def dictSet {α : Type} : List (String × α) → String → α → List (String × α)
  | [], k, v => [(k, v)]
  | (k', v') :: rest, k, v =>
    if k' = k then (k, v) :: rest else (k', v') :: dictSet rest k v

/-- Does character list `l` start with `pat`? (helper for substring
containment). -/
def listStarts : List Char → List Char → Bool
  | _, [] => true
  | [], _ :: _ => false
  | c :: cs, p :: ps => c == p && listStarts cs ps

/-- Does character list `l` contain `pat` as a contiguous run?
(helper for Python `pat in s`). -/
def listHas : List Char → List Char → Bool
  | [], pat => pat.isEmpty
  | c :: cs, pat => listStarts (c :: cs) pat || listHas cs pat

/-- Python substring test `pat in s`. -/
def strContains (s pat : String) : Bool :=
  listHas s.data pat.data

/-- The geometry of a source record: the `x`/`y` members the script reads. -/
structure Geom where
  x : Value
  y : Value
deriving DecidableEq

/-- A feature (source record or related record): attribute dictionary plus
geometry. -/
structure Feature where
  attributes : List (String × Value)
  geometry : Geom
deriving DecidableEq

/-- The per-layer configuration `main` reads from the config document:
field-mapping pairs for layers and tables, the flag field and its on/off
sentinels, the linking-id field pair, the problem-type field pair, and the
layer's object-id field name. -/
structure Config where
  layerfields : List (String × String)
  tablefields : List (String × String)
  fc_flag : String
  flagOn : String
  flagOff : String
  ids : String × String
  probtypes : String × String
  oid_fld : String

/-- One entry of the Cityworks `ServiceRequest/Problems` response:
`ProblemCode` / `ProblemSid` members, `none` when the key is absent. -/
structure ProblemEntry where
  problemCode : Option Value
  problemSid : Option Value
deriving DecidableEq

/-- What `get_problem_types` returns: either the code→id dict or the
`"error: ..."` string built from the caught exception. -/
inductive PTResult where
  | dict : List (String × Int) → PTResult
  | str : String → PTResult
deriving DecidableEq

/-- The loop body of `get_problem_types`:
`values[val["ProblemCode"].upper()] = int(val["ProblemSid"])` for each
entry; any exception (missing key, non-numeric id, non-string code)
aborts the whole parse.  Python evaluates the right-hand side first, so
the `ProblemSid` errors fire before the `ProblemCode` ones. -/
def parseProblems : List ProblemEntry → List (String × Int) →
    Except String (List (String × Int))
  | [], acc => Except.ok acc
  | e :: rest, acc =>
    match e.problemSid with
    | none => Except.error "KeyError"
    | some sidv =>
      match pyInt sidv with
      | none => Except.error "ValueError"
      | some sid =>
        match e.problemCode with
        | none => Except.error "KeyError"
        | some (Value.str code) => parseProblems rest (dictSet acc (pyUpper code) sid)
        | some _ => Except.error "AttributeError"

/-- `get_problem_types`: builds the upper-cased code → id mapping from the
`Problems` response (`none` models a response without a `"Value"` member);
any exception is caught and surfaced as the string `"error: " + str(error)`. -/
def get_problem_types (respValue : Option (List ProblemEntry)) : PTResult :=
  match respValue with
  | none => PTResult.str ("error: " ++ "KeyError")
  | some entries =>
    match parseProblems entries [] with
    | Except.ok m => PTResult.dict m
    | Except.error e => PTResult.str ("error: " ++ e)

/-- The setup check in `main`: `if prob_types == "error": ... raise`.
`True` means the run is aborted before any record is processed. -/
def vocab_check_aborts (pt : PTResult) : Bool :=
  decide (pt = PTResult.str "error")

/-- `values[c_field] = str(attrs[a_field])` for each `(c_field, a_field)`
pair of the field map; a missing source attribute raises `KeyError`. -/
def buildValues (attrs : List (String × Value)) :
    List (String × String) → List (String × Value) →
    Except String (List (String × Value))
  | [], acc => Except.ok acc
  | (c, a) :: rest, acc =>
    match lookupD attrs a with
    | none => Except.error "KeyError"
    | some v => buildValues attrs rest (dictSet acc c (Value.str (pyStr v)))

/-- The payload dictionary `submit_to_cw` sends to `ServiceRequest/Create`:
the mapped fields, then `values["X"]`, `values["Y"]` from the geometry,
then `values[typefields[0]] = prob_sid`. -/
def cw_payload (row : Feature) (fields : List (String × String))
    (typefields : String × String) (prob_sid : Int) :
    Except String (List (String × Value)) :=
  match buildValues row.attributes fields [] with
  | Except.error e => Except.error e
  | Except.ok vs =>
    Except.ok (dictSet (dictSet (dictSet vs "X" row.geometry.x) "Y" row.geometry.y)
      typefields.1 (Value.num prob_sid))

/-- `submit_to_cw(row, prob_types, fields, oid, typefields)`.

The problem-type lookup `prob_types[attrs[typefields[1]].upper()]` is
tried first: a missing attribute key re-raises `KeyError` inside the
handler; a lookup miss yields one of the two `WARNING` strings (blank
versus unknown type); a non-string attribute value raises
`AttributeError`, caught as the third `WARNING` string.  When
`prob_types` is not a dict (the corrupted-vocabulary case) the string
indexing raises an uncaught `TypeError`.  On the submit path the
function returns the `RequestId` member of the `Create` response, or the
string `"error"` when that member is absent.  `createResp` stands for
the external endpoint: payload to optional `RequestId`. -/
def submit_to_cw (row : Feature) (prob_types : PTResult)
    (fields : List (String × String)) (oid : Value)
    (typefields : String × String)
    (createResp : List (String × Value) → Option Value) : Except String Value :=
  match lookupD row.attributes typefields.2 with
  | none => Except.error "KeyError"
  | some (Value.str s) =>
    match prob_types with
    | PTResult.str _ => Except.error "TypeError"
    | PTResult.dict m =>
      match lookupD m (pyUpper s) with
      | some prob_sid =>
        match cw_payload row fields typefields prob_sid with
        | Except.error e => Except.error e
        | Except.ok values =>
          match createResp values with
          | some rid => Except.ok rid
          | none => Except.ok (Value.str "error")
      | none =>
        if pyStrip s = "" then
          Except.ok (Value.str ("WARNING: No problem type provided. Record "
            ++ pyStr oid ++ " not exported.\n"))
        else
          Except.ok (Value.str ("WARNING: Problem type " ++ s
            ++ " not found in Cityworks. Record " ++ pyStr oid ++ " not exported.\n"))
  | some _ => Except.ok (Value.str ("WARNING: Record " ++ pyStr oid
      ++ " not exported due to missing value in field " ++ typefields.2 ++ "\n"))

/-- The orchestrator's warning test on the value returned by
`submit_to_cw`: `"WARNING" in requestid`, where the `TypeError` raised
for a non-string value is caught and treated as "not a warning". -/
def isWarningVal : Value → Bool
  | Value.str s => strContains s "WARNING"
  | _ => false

/-- The raw status payload of an attachment or comment call: its
`Status` code (0 = success) and its `ErrorMessages` member. -/
structure StatusResp where
  status : Int
  errorMessages : String
deriving DecidableEq

/-- The log lines of the attachment-copy loop: one error line per
attachment whose upload status is non-zero, nothing else. -/
def attachLog (rs : List StatusResp) : List String :=
  rs.filterMap (fun a =>
    if a.status = 0 then none
    else some ("Error while copying attachment to Cityworks: "
      ++ a.errorMessages ++ "\n"))

/-- The external responses one source record's processing sees: the
`Create` endpoint (payload → optional `RequestId`) and the status
payloads of its attachment uploads. -/
structure RecEnv where
  createResp : List (String × Value) → Option Value
  attachResps : List StatusResp

/-- The query predicate of the source pass:
`fc_flag = '<flag on sentinel>'`. -/
def flaggedPred (cfg : Config) (r : Feature) : Bool :=
  decide (lookupD r.attributes cfg.fc_flag = some (Value.str cfg.flagOn))

/-- The re-query `lyr.query(where = oid_fld = '<oid>').features[0]`:
first feature whose object-id attribute has the same string form as the
interpolated oid; `none` models the `IndexError` on an empty result. -/
def queryByOid (layer : List Feature) (oid_fld : String) (oid : Value) :
    Option Feature :=
  layer.find? (fun r =>
    match lookupD r.attributes oid_fld with
    | some v => decide (pyStr v = pyStr oid)
    | none => false)

/-- The two write-back mutations on the re-queried row:
`row_orig.attributes[fc_flag] = flag_values[1]` then
`row_orig.attributes[ids[1]] = requestid` (the `except TypeError` fallback
around the second assignment can never fire for a dict assignment). -/
def updRow (cfg : Config) (row_orig : Feature) (requestid : Value) : Feature :=
  Feature.mk
    (dictSet (dictSet row_orig.attributes cfg.fc_flag (Value.str cfg.flagOff))
      cfg.ids.2 requestid)
    row_orig.geometry

/-- The body of `for row in rows.features` in `main`: read the oid, submit,
skip on a `WARNING` result (logging it), otherwise log attachment
failures, re-query the row, flip its flag, set its external id and queue
it.  `Except.error` models an uncaught exception aborting the run;
the `Option Feature` is the row queued for write-back (`none` = skipped);
the `List String` is the log output. -/
def processRecord (cfg : Config) (pt : PTResult) (layer : List Feature)
    (env : Feature → RecEnv) (row : Feature) :
    Except String (Option Feature × List String) :=
  match lookupD row.attributes cfg.oid_fld with
  | none => Except.error "KeyError"
  | some oid =>
    match submit_to_cw row pt cfg.layerfields oid cfg.probtypes
        (env row).createResp with
    | Except.error e => Except.error e
    | Except.ok requestid =>
      if isWarningVal requestid then
        Except.ok (none,
          ["Warning generated while copying record to Cityworks: "
            ++ pyStr requestid ++ "\n"])
      else
        match queryByOid layer cfg.oid_fld oid with
        | none => Except.error "IndexError"
        | some row_orig =>
          Except.ok (some (updRow cfg row_orig requestid),
            attachLog (env row).attachResps)

/-- The record loop of the source pass, accumulating `updated_rows`;
an uncaught exception aborts the loop (and hence the batch edit). -/
def processRows (cfg : Config) (pt : PTResult) (layer : List Feature)
    (env : Feature → RecEnv) : List Feature → Except String (List Feature)
  | [] => Except.ok []
  | row :: rest =>
    match processRecord cfg pt layer env row with
    | Except.error e => Except.error e
    | Except.ok (opt, _log) =>
      match processRows cfg pt layer env rest with
      | Except.error e => Except.error e
      | Except.ok updated =>
        match opt with
        | none => Except.ok updated
        | some u => Except.ok (u :: updated)

/-- The batch edit `lyr.edit_features(updates=updated_rows)`: each stored
feature is replaced by the queued update carrying the same object id, if
any.  (Skipping the call when `updated_rows` is empty changes nothing.) -/
def edit_features (store : List Feature) (updates : List Feature)
    (oid_fld : String) : List Feature :=
  store.map (fun r =>
    match updates.find? (fun u =>
        decide (lookupD u.attributes oid_fld = lookupD r.attributes oid_fld)) with
    | some u => u
    | none => r)

/-- One layer's source-record pass (`main`, the flagged-record loop):
query the rows whose flag field equals the on-sentinel, process each,
apply the queued write-backs in one batch.  The result is the new state
of the layer; `Except.error` models an uncaught exception, in which case
the batch edit never runs and the layer keeps its old state. -/
def layerPass (cfg : Config) (pt : PTResult) (layer : List Feature)
    (env : Feature → RecEnv) : Except String (List Feature) :=
  match processRows cfg pt layer env (layer.filter (flaggedPred cfg)) with
  | Except.error e => Except.error e
  | Except.ok updated => Except.ok (edit_features layer updated cfg.oid_fld)

/-- Does a candidate parent satisfy the interpolated SQL predicate
`pkey_fld = '<fk>'`? -/
def parentMatch (pkey_fld : String) (fk : Value) (p : Feature) : Bool :=
  match lookupD p.attributes pkey_fld with
  | some pv => decide (pyStr pv = pyStr fk)
  | none => false

/-- `get_parent(lyr, pkey_fld, record, fkey_fld)`: query the parent layer
for `pkey_fld = '<record.attributes[fkey_fld]>'` and take `features[0]`.
`"IndexError"` models the fault when no parent matches. -/
def get_parent (lyr : List Feature) (pkey_fld : String) (record : Feature)
    (fkey_fld : String) : Except String Feature :=
  match lookupD record.attributes fkey_fld with
  | none => Except.error "KeyError"
  | some fk =>
    match lyr.find? (parentMatch pkey_fld fk) with
    | some parent => Except.ok parent
    | none => Except.error "IndexError"

/-- `values[field[0]] = record.attributes[field[1]]` for each table
field-map pair (raw values, no `str()` here). -/
def buildValuesRaw (attrs : List (String × Value)) :
    List (String × String) → List (String × Value) →
    Except String (List (String × Value))
  | [], acc => Except.ok acc
  | (c, a) :: rest, acc =>
    match lookupD attrs a with
    | none => Except.error "KeyError"
    | some v => buildValuesRaw attrs rest (dictSet acc c v)

/-- `copy_comments(record, parent, fields, ids)`: build the comment
payload `{ids[0]: parent.attributes[ids[1]], ...table fields...}` and
POST it; `resp` stands for the parsed `CustomerCall/AddToRequest`
response, returned to the caller. -/
def copy_comments (record parent : Feature) (fields : List (String × String))
    (ids : String × String) (resp : StatusResp) : Except String StatusResp :=
  match lookupD parent.attributes ids.2 with
  | none => Except.error "KeyError"
  | some pv =>
    match buildValuesRaw record.attributes fields (dictSet [] ids.1 pv) with
    | Except.error e => Except.error e
    | Except.ok _values => Except.ok resp

/-- The external responses one related record's processing sees. -/
structure RelEnv where
  attachResps : List StatusResp
  commentResp : StatusResp

/-- The related-record query predicate `fc_flag IS NULL`. -/
def relPred (cfg : Config) (r : Feature) : Bool :=
  decide (lookupD r.attributes cfg.fc_flag = some Value.null)

/-- `record.attributes[fc_flag] = flag_values[1]` on a related record. -/
def relFlagSet (cfg : Config) (record : Feature) : Feature :=
  Feature.mk (dictSet record.attributes cfg.fc_flag (Value.str cfg.flagOff))
    record.geometry

/-- The body of `for record in rel_records` in `main`: read the oid,
resolve the parent, copy the related record's attachments to the parent's
external id (failures logged only; a parent without that attribute raises
`KeyError` either in the attachment loop or inside `copy_comments` —
the same abort), append the comment; on comment status 0 flag the record
and queue it, otherwise log the failure and leave it alone. -/
def processRelRecord (cfg : Config) (lyr : List Feature)
    (pkey_fld fkey_fld : String) (env : Feature → RelEnv) (record : Feature) :
    Except String (Option Feature × List String) :=
  match lookupD record.attributes cfg.oid_fld with
  | none => Except.error "KeyError"
  | some _rel_oid =>
    match get_parent lyr pkey_fld record fkey_fld with
    | Except.error e => Except.error e
    | Except.ok parent =>
      match copy_comments record parent cfg.tablefields cfg.ids
          (env record).commentResp with
      | Except.error e => Except.error e
      | Except.ok response =>
        if response.status = 0 then
          Except.ok (some (relFlagSet cfg record),
            attachLog (env record).attachResps
              ++ ["Status of updates to Cityworks comments: "
                ++ toString response.status ++ "\n"])
        else
          Except.ok (none,
            attachLog (env record).attachResps
              ++ ["Error while copying comment to Cityworks: "
                ++ response.errorMessages ++ "\n"])

/-- The related-record loop, accumulating `updated_rows`. -/
def processRelRecords (cfg : Config) (lyr : List Feature)
    (pkey_fld fkey_fld : String) (env : Feature → RelEnv) :
    List Feature → Except String (List Feature)
  | [] => Except.ok []
  | record :: rest =>
    match processRelRecord cfg lyr pkey_fld fkey_fld env record with
    | Except.error e => Except.error e
    | Except.ok (opt, _log) =>
      match processRelRecords cfg lyr pkey_fld fkey_fld env rest with
      | Except.error e => Except.error e
      | Except.ok updated =>
        match opt with
        | none => Except.ok updated
        | some u => Except.ok (u :: updated)

/-- One layer's related-record pass: query the records whose flag field is
null, process each, apply the queued write-backs in one batch. -/
def relatedPass (cfg : Config) (lyr : List Feature)
    (pkey_fld fkey_fld : String) (env : Feature → RelEnv)
    (table : List Feature) : Except String (List Feature) :=
  match processRelRecords cfg lyr pkey_fld fkey_fld env
      (table.filter (relPred cfg)) with
  | Except.error e => Except.error e
  | Except.ok updated => Except.ok (edit_features table updated cfg.oid_fld)

/-! ### Derived notions used to state the properties -/

/-- The string form of a feature's object-id attribute (the form the
interpolated SQL predicates compare). -/
def oidKey (oid_fld : String) (r : Feature) : Option String :=
  (lookupD r.attributes oid_fld).map pyStr

/-- Two features carry distinct object ids (or neither carries one).
Feature layers guarantee this for their object-id field. -/
def oidDistinct (oid_fld : String) (a b : Feature) : Prop :=
  oidKey oid_fld a ≠ oidKey oid_fld b ∨
    (oidKey oid_fld a = none ∧ oidKey oid_fld b = none)

/-- The layer's object ids are pairwise distinct. -/
def UniqueOids (oid_fld : String) (layer : List Feature) : Prop :=
  List.Pairwise (oidDistinct oid_fld) layer

instance (oid_fld : String) (a b : Feature) : Decidable (oidDistinct oid_fld a b) := by
  unfold oidDistinct
  infer_instance

instance (oid_fld : String) (layer : List Feature) : Decidable (UniqueOids oid_fld layer) := by
  unfold UniqueOids
  exact List.instDecidablePairwise layer

/-- The row a record's processing queues for write-back, if any. -/
def outcomeFn (cfg : Config) (pt : PTResult) (layer : List Feature)
    (env : Feature → RecEnv) (r : Feature) : Option Feature :=
  match processRecord cfg pt layer env r with
  | Except.ok (some u, _) => some u
  | _ => none

/-- The net effect of one source pass on one stored feature: unflagged
rows and skipped rows are untouched, a queued update replaces its row. -/
def passResult (cfg : Config) (pt : PTResult) (layer : List Feature)
    (env : Feature → RecEnv) (r : Feature) : Feature :=
  if flaggedPred cfg r then
    match outcomeFn cfg pt layer env r with
    | some u => u
    | none => r
  else r

/-- "The problem-type attribute is blank, unresolvable in the vocabulary,
or absent": a null / non-string value (Python `AttributeError` on
`.upper()`), or a string whose upper-cased form is not a key of the
vocabulary (which is the case for blank strings in any vocabulary built
from real problem codes). -/
def problemTypeBad (m : List (String × Int)) : Value → Bool
  | Value.str s => (lookupD m (pyUpper s)).isNone
  | _ => true

/-! ### Concrete fixtures used to evaluate the code on specific inputs -/

/-- A representative configuration: one field-map pair per table, flag
field `REPORTED` with sentinels `Y` / `N`, linking ids
`(RequestId, CWID)`, type fields `(ProblemSid, ptype)`. -/
def cfgA : Config :=
  Config.mk [("Comments", "desc")] [("Comments", "comment")]
    "REPORTED" "Y" "N" ("RequestId", "CWID") ("ProblemSid", "ptype") "OBJECTID"

/-- A flagged source record with a resolvable problem type. -/
def rowA : Feature :=
  Feature.mk
    [("OBJECTID", Value.num 1), ("REPORTED", Value.str "Y"),
     ("ptype", Value.str "pothole"), ("desc", Value.str "big hole"),
     ("CWID", Value.null)]
    (Geom.mk (Value.num 10) (Value.num 20))

/-- The problem-type vocabulary resolving `rowA`'s type. -/
def ptA : PTResult := PTResult.dict [("POTHOLE", 42)]

/-- External responses for a run whose `Create` response carries no
`RequestId` member (the SubmissionError case), with no attachments. -/
def envNoRequestId : Feature → RecEnv := fun _ => RecEnv.mk (fun _ => none) []

/-- A `Problems` response entry whose `ProblemSid` is the non-numeric
string `"abc"`: `int("abc")` raises `ValueError`. -/
def badProblemsResp : Option (List ProblemEntry) :=
  some [ProblemEntry.mk (some (Value.str "POTHOLE")) (some (Value.str "abc"))]

/-- External responses: the `Create` endpoint returns `RequestId` 77 and
there are no attachments. -/
def envCreate77 : Feature → RecEnv :=
  fun _ => RecEnv.mk (fun _ => some (Value.num 77)) []

/-- External responses: the `Create` endpoint returns `RequestId` 77 and
the record's one attachment upload fails with status 1. -/
def envCreate77AttachBad : Feature → RecEnv :=
  fun _ => RecEnv.mk (fun _ => some (Value.num 77)) [StatusResp.mk 1 "bad upload"]

/-- A source record whose flag field is already at the "off" sentinel. -/
def rowN : Feature :=
  Feature.mk
    [("OBJECTID", Value.num 2), ("REPORTED", Value.str "N"),
     ("ptype", Value.str "pothole"), ("desc", Value.str "old hole"),
     ("CWID", Value.null)]
    (Geom.mk (Value.num 1) (Value.num 2))

/-- A flagged source record whose problem type resolves in no vocabulary
entry. -/
def rowBadType : Feature :=
  Feature.mk
    [("OBJECTID", Value.num 3), ("REPORTED", Value.str "Y"),
     ("ptype", Value.str "sinkhole"), ("desc", Value.str "deep"),
     ("CWID", Value.null)]
    (Geom.mk (Value.num 5) (Value.num 6))

/-- A parent source record already submitted (its external-id attribute
`CWID` is populated). -/
def parentB : Feature :=
  Feature.mk [("OBJECTID", Value.num 1), ("REPORTID", Value.str "R1"),
    ("CWID", Value.num 9)] (Geom.mk (Value.num 0) (Value.num 0))

/-- A related comment record whose flag field is null and whose foreign
key points at `parentB`. -/
def recordB : Feature :=
  Feature.mk [("OBJECTID", Value.num 5), ("PARENTID", Value.str "R1"),
    ("comment", Value.str "hello"), ("REPORTED", Value.null)]
    (Geom.mk (Value.num 0) (Value.num 0))

/-- Related-record responses: no attachments, comment append succeeds. -/
def envRelOk : Feature → RelEnv := fun _ => RelEnv.mk [] (StatusResp.mk 0 "")

/-- A parent layer in which `recordB`'s foreign key has no match. -/
def lyrNoParent : List Feature :=
  [Feature.mk [("OBJECTID", Value.num 1), ("REPORTID", Value.str "R2"),
    ("CWID", Value.num 9)] (Geom.mk (Value.num 0) (Value.num 0))]

/-! ### Dictionary, substring and list lemmas -/

theorem lookupD_dictSet_self {α : Type} (d : List (String × α)) (k : String) (v : α) :
    lookupD (dictSet d k v) k = some v := by
  induction d with
  | nil => simp [dictSet, lookupD]
  | cons p rest ih =>
    obtain ⟨k', v'⟩ := p
    by_cases h : k' = k
    · simp [dictSet, h, lookupD]
    · simp [dictSet, h, lookupD, ih]

theorem lookupD_dictSet_ne {α : Type} (d : List (String × α)) (k k₂ : String)
    (v : α) (h : k ≠ k₂) : lookupD (dictSet d k v) k₂ = lookupD d k₂ := by
  induction d with
  | nil => simp [dictSet, lookupD, h]
  | cons p rest ih =>
    obtain ⟨k', v'⟩ := p
    by_cases h' : k' = k
    · subst h'
      simp [dictSet, lookupD, h]
    · simp only [dictSet, if_neg h', lookupD]
      by_cases h₂ : k' = k₂
      · simp [h₂]
      · simp [h₂, ih]

theorem listStarts_append (a b pat : List Char) (h : listStarts a pat = true) :
    listStarts (a ++ b) pat = true := by
  induction pat generalizing a with
  | nil =>
    cases a <;> simp [listStarts]
  | cons p ps ih =>
    cases a with
    | nil => simp [listStarts] at h
    | cons c cs =>
      simp only [listStarts, Bool.and_eq_true] at h
      simp only [List.cons_append, listStarts, Bool.and_eq_true]
      exact ⟨h.1, ih cs h.2⟩

theorem listHas_append_left (a b pat : List Char) (h : listHas a pat = true) :
    listHas (a ++ b) pat = true := by
  induction a with
  | nil =>
    simp only [listHas, List.isEmpty_iff] at h
    subst h
    cases b <;> simp [listHas, listStarts]
  | cons c cs ih =>
    simp only [listHas, Bool.or_eq_true] at h
    rcases h with h1 | h2
    · simp only [List.cons_append, listHas, Bool.or_eq_true]
      exact Or.inl (by
        have := listStarts_append (c :: cs) b pat h1
        simpa using this)
    · simp only [List.cons_append, listHas, Bool.or_eq_true]
      exact Or.inr (ih h2)

theorem strContains_append_left (s t pat : String)
    (h : strContains s pat = true) : strContains (s ++ t) pat = true := by
  simp only [strContains, String.data_append] at h ⊢
  exact listHas_append_left _ _ _ h

theorem find?_of_unique {α : Type} (l : List α) (p : α → Bool) (u : α)
    (hu : u ∈ l) (hp : p u = true) (huniq : ∀ v ∈ l, p v = true → v = u) :
    l.find? p = some u := by
  induction l with
  | nil => cases hu
  | cons a rest ih =>
    by_cases ha : p a = true
    · have : a = u := huniq a (List.mem_cons_self a rest) ha
      subst this
      simp [List.find?_cons_of_pos, ha]
    · have hau : a ≠ u := fun e => ha (e ▸ hp)
      have hu' : u ∈ rest := by
        rcases List.mem_cons.mp hu with h | h
        · exact absurd h.symm hau
        · exact h
      rw [List.find?_cons_of_neg _ (by simpa using ha)]
      exact ih hu' (fun v hv hpv => huniq v (List.mem_cons_of_mem _ hv) hpv)

theorem buildValues_lookup_notin (attrs : List (String × Value))
    (fields : List (String × String)) (acc out : List (String × Value))
    (c : String) (hc : c ∉ fields.map Prod.fst)
    (h : buildValues attrs fields acc = Except.ok out) :
    lookupD out c = lookupD acc c := by
  induction fields generalizing acc with
  | nil =>
    simp only [buildValues, Except.ok.injEq] at h
    subst h
    rfl
  | cons f rest ih =>
    obtain ⟨c0, a0⟩ := f
    simp only [List.map_cons, List.mem_cons, not_or] at hc
    simp only [buildValues] at h
    cases ha : lookupD attrs a0 with
    | none => rw [ha] at h; cases h
    | some v =>
      rw [ha] at h
      rw [ih _ hc.2 h]
      exact lookupD_dictSet_ne acc c0 c _ (fun e => hc.1 e.symm)

theorem buildValues_lookup_mem (attrs : List (String × Value))
    (fields : List (String × String)) (acc out : List (String × Value))
    (c a : String) (hnd : (fields.map Prod.fst).Nodup)
    (hmem : (c, a) ∈ fields)
    (h : buildValues attrs fields acc = Except.ok out) :
    ∃ v, lookupD attrs a = some v ∧
      lookupD out c = some (Value.str (pyStr v)) := by
  induction fields generalizing acc with
  | nil => cases hmem
  | cons f rest ih =>
    obtain ⟨c0, a0⟩ := f
    simp only [List.map_cons, List.nodup_cons] at hnd
    simp only [buildValues] at h
    cases ha : lookupD attrs a0 with
    | none => rw [ha] at h; cases h
    | some v =>
      rw [ha] at h
      rcases List.mem_cons.mp hmem with he | hm
      · obtain ⟨e1, e2⟩ := Prod.mk.injEq .. ▸ he
        subst e1
        subst e2
        refine ⟨v, ha, ?_⟩
        rw [buildValues_lookup_notin attrs rest _ out c hnd.1 h]
        exact lookupD_dictSet_self acc c _
      · exact ih _ hnd.2 hm h

/-- C8: for a record whose problem type resolves in the vocabulary, the
payload submitted to `ServiceRequest/Create` carries, for each configured
`(externalField, sourceField)` pair (whose external name does not collide
with the fixed keys), the string form of the source attribute under the
external name; the geometry under the fixed keys `X` and `Y`; and the
resolved problem-type id under the configured type field.  The final
conjunct exhibits that this payload is exactly what `submit_to_cw`
sends. -/
theorem C8_payload_contents (row : Feature) (fields : List (String × String))
    (tf : String × String) (m : List (String × Int)) (s : String) (sid : Int)
    (oid : Value) (pl : List (String × Value))
    (hnd : (fields.map Prod.fst).Nodup)
    (htfX : tf.1 ≠ "X") (htfY : tf.1 ≠ "Y")
    (hattr : lookupD row.attributes tf.2 = some (Value.str s))
    (hsid : lookupD m (pyUpper s) = some sid)
    (hpl : cw_payload row fields tf sid = Except.ok pl) :
    lookupD pl "X" = some row.geometry.x ∧
    lookupD pl "Y" = some row.geometry.y ∧
    lookupD pl tf.1 = some (Value.num sid) ∧
    (∀ c a, (c, a) ∈ fields → c ≠ "X" → c ≠ "Y" → c ≠ tf.1 →
      ∃ v, lookupD row.attributes a = some v ∧
        lookupD pl c = some (Value.str (pyStr v))) ∧
    (∀ cr, submit_to_cw row (PTResult.dict m) fields oid tf cr =
      match cr pl with
      | some rid => Except.ok rid
      | none => Except.ok (Value.str "error")) := by
  simp only [cw_payload] at hpl
  cases hbv : buildValues row.attributes fields [] with
  | error e => rw [hbv] at hpl; cases hpl
  | ok vs =>
    rw [hbv] at hpl
    simp only [Except.ok.injEq] at hpl
    subst hpl
    refine ⟨?_, ?_, ?_, ?_, ?_⟩
    · rw [lookupD_dictSet_ne _ _ _ _ htfX,
        lookupD_dictSet_ne _ _ _ _ (by decide : "Y" ≠ "X")]
      exact lookupD_dictSet_self _ _ _
    · rw [lookupD_dictSet_ne _ _ _ _ htfY]
      exact lookupD_dictSet_self _ _ _
    · exact lookupD_dictSet_self _ _ _
    · intro c a hmem hcX hcY hctf
      obtain ⟨v, hv, hout⟩ :=
        buildValues_lookup_mem row.attributes fields [] vs c a hnd hmem hbv
      refine ⟨v, hv, ?_⟩
      rw [lookupD_dictSet_ne _ _ _ _ (fun e => hctf e.symm),
        lookupD_dictSet_ne _ _ _ _ (fun e => hcY e.symm),
        lookupD_dictSet_ne _ _ _ _ (fun e => hcX e.symm)]
      exact hout
    · intro cr
      simp only [submit_to_cw, hattr, hsid, cw_payload, hbv]

/-- The record of the spec's worked example for C8. -/
def rowC8 : Feature :=
  Feature.mk [("ptype", Value.str "POTHOLE"), ("desc", Value.str "tree down")]
    (Geom.mk (Value.num 3) (Value.num 4))

/-- The payload the worked example produces. -/
def plC8 : List (String × Value) :=
  [("Comments", Value.str "tree down"), ("X", Value.num 3),
   ("Y", Value.num 4), ("ProblemSid", Value.num 42)]

/-- C8 witness: the spec's worked example — vocabulary `POTHOLE ↦ 42` and
field map `[["Comments", "desc"]]` yield a payload with `ProblemSid: 42`,
`Comments: <desc value>`, `X` and `Y`. -/
theorem C8_payload_contents_witness :
    lookupD plC8 "X" = some (Value.num 3) ∧
    lookupD plC8 "Y" = some (Value.num 4) ∧
    lookupD plC8 "ProblemSid" = some (Value.num 42) ∧
    ∃ v, lookupD rowC8.attributes "desc" = some v ∧
      lookupD plC8 "Comments" = some (Value.str (pyStr v)) := by
  obtain ⟨h1, h2, h3, h4, _⟩ :=
    C8_payload_contents rowC8 [("Comments", "desc")] ("ProblemSid", "ptype")
      [("POTHOLE", 42)] "POTHOLE" 42 (Value.num 1) plC8
      (by decide) (by decide) (by decide) rfl rfl rfl
  exact ⟨h1, h2, h3,
    h4 "Comments" "desc" (by simp) (by decide) (by decide) (by decide)⟩

/-! ### Claims C1 and C2 -/

/-- C1: FALSIFIED BY THE CODE.  The claim says a record whose submission
returns a SubmissionError (the `Create` response lacks `RequestId`) is
logged as an error and skipped with no write-back, its flag left at the
"on" sentinel and its external id unset.  In the code, `submit_to_cw`
returns the string `"error"` in that case, but the orchestrator only
tests `"WARNING" in requestid`; `"error"` fails that test, so the record
takes the success path: its flag is flipped to the "off" sentinel, its
external-id attribute is set to the literal string `"error"`, and it is
written back.  This theorem evaluates the code on such a record. -/
theorem C1_submission_error_written_back :
    submit_to_cw rowA ptA cfgA.layerfields (Value.num 1) cfgA.probtypes
        (fun _ => none) = Except.ok (Value.str "error") ∧
    isWarningVal (Value.str "error") = false ∧
    layerPass cfgA ptA [rowA] envNoRequestId =
      Except.ok [Feature.mk
        [("OBJECTID", Value.num 1), ("REPORTED", Value.str "N"),
         ("ptype", Value.str "pothole"), ("desc", Value.str "big hole"),
         ("CWID", Value.str "error")]
        (Geom.mk (Value.num 10) (Value.num 20))] :=
  ⟨rfl, rfl, rfl⟩

/-- C2: FALSIFIED BY THE CODE.  The claim says any exception while
building the problem-type vocabulary (e.g. a non-numeric id) is detected
during setup and aborts the whole run before any record is processed.
In the code, `get_problem_types` catches the exception and returns the
string `"error: " + str(error)`, but `main`'s setup check compares the
result with the exact string `"error"` (`prob_types == "error"`), which
never matches; the run proceeds into the record loop holding the error
string instead of a dict, and only faults (uncaught `TypeError`) once the
first flagged record indexes into it.  This theorem evaluates the code on
a vocabulary response containing a non-numeric `ProblemSid`. -/
theorem C2_vocab_failure_not_detected_at_setup :
    get_problem_types badProblemsResp = PTResult.str "error: ValueError" ∧
    vocab_check_aborts (get_problem_types badProblemsResp) = false ∧
    layerPass cfgA (get_problem_types badProblemsResp) [rowA] envNoRequestId =
      Except.error "TypeError" :=
  ⟨rfl, rfl, rfl⟩

/-! ### The shape of a successful record processing -/

theorem processRecord_some_shape (cfg : Config) (pt : PTResult)
    (layer : List Feature) (env : Feature → RecEnv) (r : Feature)
    (u : Feature) (log : List String)
    (h : processRecord cfg pt layer env r = Except.ok (some u, log)) :
    ∃ oid rid row_orig,
      lookupD r.attributes cfg.oid_fld = some oid ∧
      submit_to_cw r pt cfg.layerfields oid cfg.probtypes (env r).createResp =
        Except.ok rid ∧
      isWarningVal rid = false ∧
      queryByOid layer cfg.oid_fld oid = some row_orig ∧
      u = updRow cfg row_orig rid ∧
      log = attachLog (env r).attachResps := by
  simp only [processRecord] at h
  split at h
  next => cases h
  next oid hoid =>
    split at h
    next => cases h
    next rid hsub =>
      by_cases hw : isWarningVal rid = true
      · rw [if_pos hw] at h
        simp at h
      · rw [if_neg hw] at h
        split at h
        next => cases h
        next row_orig hq =>
          simp only [Except.ok.injEq, Prod.mk.injEq, Option.some.injEq] at h
          obtain ⟨h1, h2⟩ := h
          exact ⟨oid, rid, row_orig, hoid, hsub, by simpa using hw, hq,
            h1.symm, h2.symm⟩

/-- C5: for a record whose submission succeeded, the queued write-back
(flag flip and external id) is the same whatever the statuses of its
attachment-copy uploads are — a non-zero attachment status only adds a
log line and never prevents the record's flag flip and write-back. -/
theorem C5_attachment_failure_never_blocks (cfg : Config) (pt : PTResult)
    (layer : List Feature) (env envB : Feature → RecEnv) (r : Feature)
    (u : Feature) (log : List String)
    (hcr : (envB r).createResp = (env r).createResp)
    (h : processRecord cfg pt layer env r = Except.ok (some u, log)) :
    processRecord cfg pt layer envB r =
      Except.ok (some u, attachLog (envB r).attachResps) ∧
    ∀ a ∈ (envB r).attachResps, a.status ≠ 0 →
      ("Error while copying attachment to Cityworks: "
        ++ a.errorMessages ++ "\n") ∈ attachLog (envB r).attachResps := by
  obtain ⟨oid, rid, row_orig, hoid, hsub, hw, hq, hu, _hlog⟩ :=
    processRecord_some_shape cfg pt layer env r u log h
  constructor
  · rw [hu]
    simp only [processRecord, hoid, hcr, hsub, hw, hq]
    simp
  · intro a ha hs
    simp only [attachLog, List.mem_filterMap]
    exact ⟨a, ha, by simp [hs]⟩

/-- C5 witness: `rowA`'s submission succeeds with id 77; with a failing
attachment upload the queued update is unchanged and the failure is in
the log. -/
theorem C5_attachment_failure_never_blocks_witness :
    processRecord cfgA ptA [rowA] envCreate77AttachBad rowA =
      Except.ok (some (updRow cfgA rowA (Value.num 77)),
        attachLog (envCreate77AttachBad rowA).attachResps) ∧
    ∀ a ∈ (envCreate77AttachBad rowA).attachResps, a.status ≠ 0 →
      ("Error while copying attachment to Cityworks: "
        ++ a.errorMessages ++ "\n") ∈
        attachLog (envCreate77AttachBad rowA).attachResps :=
  C5_attachment_failure_never_blocks cfgA ptA [rowA] envCreate77
    envCreate77AttachBad rowA (updRow cfgA rowA (Value.num 77)) [] rfl rfl

/-! ### Claims C6 and C10: the related-record phase -/

theorem copy_comments_ok_resp (record parent : Feature)
    (fields : List (String × String)) (i : String × String)
    (resp response : StatusResp)
    (h : copy_comments record parent fields i resp = Except.ok response) :
    response = resp := by
  simp only [copy_comments] at h
  split at h
  next => cases h
  next pv hpv =>
    split at h
    next => cases h
    next vs hvs => exact (Except.ok.inj h).symm

/-- C6: a related record is flagged and queued for write-back exactly when
its comment-append call reports status 0; on a non-zero status the
failure is logged, the flag is not set and the record is not queued. -/
theorem C6_related_flag_iff_comment_ok (cfg : Config) (lyr : List Feature)
    (pkey_fld fkey_fld : String) (env : Feature → RelEnv) (record : Feature)
    (out : Option Feature) (log : List String)
    (h : processRelRecord cfg lyr pkey_fld fkey_fld env record =
      Except.ok (out, log)) :
    (out.isSome = true ↔ (env record).commentResp.status = 0) ∧
    ((env record).commentResp.status = 0 →
      out = some (relFlagSet cfg record)) ∧
    ((env record).commentResp.status ≠ 0 → out = none ∧
      ("Error while copying comment to Cityworks: "
        ++ (env record).commentResp.errorMessages ++ "\n") ∈ log) := by
  simp only [processRelRecord] at h
  split at h
  next => cases h
  next ro ho =>
    split at h
    next => cases h
    next parent hp =>
      split at h
      next => cases h
      next response hc =>
        have hre : response = (env record).commentResp :=
          copy_comments_ok_resp _ _ _ _ _ _ hc
        subst hre
        by_cases hs : (env record).commentResp.status = 0
        · rw [if_pos hs] at h
          simp only [Except.ok.injEq, Prod.mk.injEq] at h
          obtain ⟨h1, _⟩ := h
          subst h1
          exact ⟨by simp [hs], fun _ => rfl, fun hns => absurd hs hns⟩
        · rw [if_neg hs] at h
          simp only [Except.ok.injEq, Prod.mk.injEq] at h
          obtain ⟨h1, h2⟩ := h
          subst h1
          subst h2
          refine ⟨by simp [hs], fun he => absurd he hs, fun _ => ⟨rfl, ?_⟩⟩
          simp

/-- C6 witness: a related record whose comment append reports status 0 is
flagged and queued. -/
theorem C6_related_flag_iff_comment_ok_witness :
    ((some (relFlagSet cfgA recordB) : Option Feature).isSome = true ↔
      (envRelOk recordB).commentResp.status = 0) ∧
    ((envRelOk recordB).commentResp.status = 0 →
      (some (relFlagSet cfgA recordB) : Option Feature) =
        some (relFlagSet cfgA recordB)) ∧
    ((envRelOk recordB).commentResp.status ≠ 0 →
      (some (relFlagSet cfgA recordB) : Option Feature) = none ∧
      ("Error while copying comment to Cityworks: "
        ++ (envRelOk recordB).commentResp.errorMessages ++ "\n") ∈
        (["Status of updates to Cityworks comments: 0\n"] : List String)) :=
  C6_related_flag_iff_comment_ok cfgA [parentB] "REPORTID" "PARENTID"
    envRelOk recordB (some (relFlagSet cfgA recordB))
    ["Status of updates to Cityworks comments: 0\n"] rfl

/-- C10: parent resolution is partial — when a related record's foreign
key matches no source record, `get_parent` indexes an empty query result,
so the lookup faults (`IndexError`) instead of returning an absent value,
and the related-record phase for the layer stops with that fault (hence
no write-back at all) rather than skipping the unmatched record. -/
theorem C10_get_parent_faults (cfg : Config) (lyr : List Feature)
    (pkey_fld fkey_fld : String) (env : Feature → RelEnv)
    (table : List Feature) (record : Feature) (rest : List Feature)
    (fk roid : Value)
    (hfk : lookupD record.attributes fkey_fld = some fk)
    (hno : ∀ p ∈ lyr, parentMatch pkey_fld fk p = false)
    (hfil : table.filter (relPred cfg) = record :: rest)
    (hoid : lookupD record.attributes cfg.oid_fld = some roid) :
    get_parent lyr pkey_fld record fkey_fld = Except.error "IndexError" ∧
    relatedPass cfg lyr pkey_fld fkey_fld env table =
      Except.error "IndexError" := by
  have hgp : get_parent lyr pkey_fld record fkey_fld =
      Except.error "IndexError" := by
    simp only [get_parent, hfk]
    rw [List.find?_eq_none.mpr (fun p hp => by simp [hno p hp])]
  refine ⟨hgp, ?_⟩
  simp only [relatedPass, hfil, processRelRecords, processRelRecord, hoid, hgp]

/-- C10 witness: a comment record whose foreign key value `R1` matches no
parent makes the phase fault. -/
theorem C10_get_parent_faults_witness :
    get_parent lyrNoParent "REPORTID" recordB "PARENTID" =
      Except.error "IndexError" ∧
    relatedPass cfgA lyrNoParent "REPORTID" "PARENTID" envRelOk [recordB] =
      Except.error "IndexError" :=
  C10_get_parent_faults cfgA lyrNoParent "REPORTID" "PARENTID" envRelOk
    [recordB] recordB [] (Value.str "R1") (Value.num 5)
    rfl (by decide) rfl rfl

/-! ### The net effect of a whole source pass -/

theorem oidDistinct_symm (oid_fld : String) :
    Symmetric (oidDistinct oid_fld) := by
  intro a b h
  rcases h with h1 | h2
  · exact Or.inl (Ne.symm h1)
  · exact Or.inr ⟨h2.2, h2.1⟩

theorem uniqueOids_distinct (oid_fld : String) (layer : List Feature)
    (hu : UniqueOids oid_fld layer) (a b : Feature)
    (ha : a ∈ layer) (hb : b ∈ layer) (hne : a ≠ b) :
    oidDistinct oid_fld a b :=
  List.Pairwise.forall (oidDistinct_symm oid_fld) hu ha hb hne

theorem queryByOid_self (oid_fld : String) (layer : List Feature)
    (fr : Feature) (oid : Value)
    (hu : UniqueOids oid_fld layer) (hmem : fr ∈ layer)
    (hoid : lookupD fr.attributes oid_fld = some oid) :
    queryByOid layer oid_fld oid = some fr := by
  induction layer with
  | nil => cases hmem
  | cons a rest ih =>
    have hu' := List.pairwise_cons.mp hu
    rcases List.mem_cons.mp hmem with he | hm
    · subst he
      unfold queryByOid
      rw [List.find?_cons_of_pos]
      simp [hoid]
    · have hd : oidDistinct oid_fld a fr := hu'.1 fr hm
      have hpa : (match lookupD a.attributes oid_fld with
          | some v => decide (pyStr v = pyStr oid)
          | none => false) = false := by
        cases hv : lookupD a.attributes oid_fld with
        | none => simp
        | some v =>
          simp only [decide_eq_false_iff_not]
          intro heq
          rcases hd with h1 | h2
          · exact h1 (by simp [oidKey, hv, hoid, heq])
          · simp [oidKey, hv] at h2
      unfold queryByOid
      rw [List.find?_cons_of_neg rest (by simp [hpa])]
      simpa [queryByOid] using ih hu'.2 hm

theorem updRow_oid (cfg : Config) (ro : Feature) (rid : Value)
    (h1 : cfg.oid_fld ≠ cfg.fc_flag) (h2 : cfg.oid_fld ≠ cfg.ids.2) :
    lookupD (updRow cfg ro rid).attributes cfg.oid_fld =
      lookupD ro.attributes cfg.oid_fld := by
  simp only [updRow]
  rw [lookupD_dictSet_ne _ _ _ _ (Ne.symm h2),
    lookupD_dictSet_ne _ _ _ _ (Ne.symm h1)]

theorem processRows_ok (cfg : Config) (pt : PTResult) (layer : List Feature)
    (env : Feature → RecEnv) (l : List Feature) (updated : List Feature)
    (h : processRows cfg pt layer env l = Except.ok updated) :
    updated = l.filterMap (outcomeFn cfg pt layer env) ∧
    ∀ r ∈ l, ∃ res, processRecord cfg pt layer env r = Except.ok res := by
  induction l generalizing updated with
  | nil =>
    simp only [processRows, Except.ok.injEq] at h
    subst h
    exact ⟨rfl, fun r hr => absurd hr (List.not_mem_nil r)⟩
  | cons row rest ih =>
    simp only [processRows] at h
    split at h
    next => cases h
    next opt lg hres =>
      split at h
      next => cases h
      next updated' hrest =>
        obtain ⟨ih1, ih2⟩ := ih updated' hrest
        have hout : outcomeFn cfg pt layer env row = opt := by
          cases opt <;> simp [outcomeFn, hres]
        have hmemstep : ∀ r ∈ row :: rest,
            ∃ res, processRecord cfg pt layer env r = Except.ok res := by
          intro r hr
          rcases List.mem_cons.mp hr with he | hm
          · exact ⟨(opt, lg), he ▸ hres⟩
          · exact ih2 r hm
        cases opt with
        | none =>
          simp only [Except.ok.injEq] at h
          subst h
          exact ⟨by simp [List.filterMap_cons, hout, ih1], hmemstep⟩
        | some u =>
          simp only [Except.ok.injEq] at h
          subst h
          exact ⟨by simp [List.filterMap_cons, hout, ih1], hmemstep⟩

theorem outcomeFn_some (cfg : Config) (pt : PTResult) (layer : List Feature)
    (env : Feature → RecEnv) (r u : Feature)
    (hu : UniqueOids cfg.oid_fld layer)
    (h1 : cfg.oid_fld ≠ cfg.fc_flag) (h2 : cfg.oid_fld ≠ cfg.ids.2)
    (hr : r ∈ layer)
    (ho : outcomeFn cfg pt layer env r = some u) :
    ∃ rid, u = updRow cfg r rid ∧
      lookupD u.attributes cfg.oid_fld = lookupD r.attributes cfg.oid_fld ∧
      (lookupD r.attributes cfg.oid_fld).isSome = true := by
  unfold outcomeFn at ho
  split at ho
  next u' lg heq =>
    obtain ⟨oid, rid, row_orig, hoid, _hsub, _hw, hq, hurow, _hlog⟩ :=
      processRecord_some_shape cfg pt layer env r u' lg heq
    have hself : queryByOid layer cfg.oid_fld oid = some r :=
      queryByOid_self cfg.oid_fld layer r oid hu hr hoid
    have hro : row_orig = r := by
      rw [hq] at hself
      exact Option.some.inj hself
    have huu : u' = u := Option.some.inj ho
    have hur : u = updRow cfg r rid := by rw [← huu, hurow, hro]
    refine ⟨rid, hur, ?_, by simp [hoid]⟩
    rw [hur, updRow_oid cfg r rid h1 h2]
  next hne => cases ho

theorem update_match_source (cfg : Config) (pt : PTResult)
    (layer : List Feature) (env : Feature → RecEnv)
    (updated : List Feature)
    (hu : UniqueOids cfg.oid_fld layer)
    (h1 : cfg.oid_fld ≠ cfg.fc_flag) (h2 : cfg.oid_fld ≠ cfg.ids.2)
    (hupd : updated = (layer.filter (flaggedPred cfg)).filterMap
      (outcomeFn cfg pt layer env))
    (r : Feature) (hr : r ∈ layer) (u : Feature) (humem : u ∈ updated)
    (hpred : lookupD u.attributes cfg.oid_fld =
      lookupD r.attributes cfg.oid_fld) :
    flaggedPred cfg r = true ∧ outcomeFn cfg pt layer env r = some u := by
  subst hupd
  obtain ⟨fr, hfrmem, hfro⟩ := List.mem_filterMap.mp humem
  obtain ⟨hfrl, hfrflag⟩ := List.mem_filter.mp hfrmem
  obtain ⟨rid, _hurow, huoid, hsome⟩ :=
    outcomeFn_some cfg pt layer env fr u hu h1 h2 hfrl hfro
  have hfr_r : lookupD fr.attributes cfg.oid_fld =
      lookupD r.attributes cfg.oid_fld := huoid.symm.trans hpred
  by_cases hfr : fr = r
  · subst hfr
    exact ⟨hfrflag, hfro⟩
  · exfalso
    have hd := uniqueOids_distinct cfg.oid_fld layer hu fr r hfrl hr hfr
    rcases hd with hne | ⟨hn1, _⟩
    · exact hne (by simp [oidKey, hfr_r])
    · cases hlv : lookupD fr.attributes cfg.oid_fld with
      | none => rw [hlv] at hsome; cases hsome
      | some v => simp [oidKey, hlv] at hn1

theorem layerPass_eq_map (cfg : Config) (pt : PTResult)
    (layer newLayer : List Feature) (env : Feature → RecEnv)
    (hu : UniqueOids cfg.oid_fld layer)
    (h1 : cfg.oid_fld ≠ cfg.fc_flag) (h2 : cfg.oid_fld ≠ cfg.ids.2)
    (hp : layerPass cfg pt layer env = Except.ok newLayer) :
    newLayer = layer.map (passResult cfg pt layer env) := by
  simp only [layerPass] at hp
  split at hp
  next => cases hp
  next updated hrows =>
    obtain ⟨hupd, _hok⟩ := processRows_ok cfg pt layer env _ updated hrows
    simp only [Except.ok.injEq] at hp
    subst hp
    unfold edit_features
    apply List.map_congr_left
    intro r hr
    by_cases hfp : flaggedPred cfg r = true
    · cases ho : outcomeFn cfg pt layer env r with
      | none =>
        have hnone : updated.find? (fun u =>
            decide (lookupD u.attributes cfg.oid_fld =
              lookupD r.attributes cfg.oid_fld)) = none := by
          apply List.find?_eq_none.mpr
          intro u humem hpred
          obtain ⟨_, ho'⟩ := update_match_source cfg pt layer env updated
            hu h1 h2 hupd r hr u humem (of_decide_eq_true hpred)
          rw [ho] at ho'
          cases ho'
        rw [hnone]
        simp [passResult, hfp, ho]
      | some ur =>
        obtain ⟨rid, _hurow, huoid, _⟩ :=
          outcomeFn_some cfg pt layer env r ur hu h1 h2 hr ho
        have hmem : ur ∈ updated := by
          rw [hupd]
          exact List.mem_filterMap.mpr ⟨r, List.mem_filter.mpr ⟨hr, hfp⟩, ho⟩
        have hfind : updated.find? (fun u =>
            decide (lookupD u.attributes cfg.oid_fld =
              lookupD r.attributes cfg.oid_fld)) = some ur := by
          apply find?_of_unique updated _ ur hmem (decide_eq_true huoid)
          intro v hv hpv
          obtain ⟨_, ho'⟩ := update_match_source cfg pt layer env updated
            hu h1 h2 hupd r hr v hv (of_decide_eq_true hpv)
          rw [ho] at ho'
          exact (Option.some.inj ho').symm
        rw [hfind]
        simp [passResult, hfp, ho]
    · have hnone : updated.find? (fun u =>
          decide (lookupD u.attributes cfg.oid_fld =
            lookupD r.attributes cfg.oid_fld)) = none := by
        apply List.find?_eq_none.mpr
        intro u humem hpred
        obtain ⟨hflag', _⟩ := update_match_source cfg pt layer env updated
          hu h1 h2 hupd r hr u humem (of_decide_eq_true hpred)
        exact hfp hflag'
      rw [hnone]
      simp [passResult, hfp]

/-! ### Claims C7, C3, C4 and C9 -/

/-- C7: a source record whose flag field does not equal the "on" sentinel
is not selected by the pass's query (so it is never submitted) and is not
touched by the write-back: the stored feature at its position is exactly
the old one, all attributes included. -/
theorem C7_unflagged_untouched (cfg : Config) (pt : PTResult)
    (layer newLayer : List Feature) (env : Feature → RecEnv) (i : Nat)
    (hu : UniqueOids cfg.oid_fld layer)
    (h1 : cfg.oid_fld ≠ cfg.fc_flag) (h2 : cfg.oid_fld ≠ cfg.ids.2)
    (hp : layerPass cfg pt layer env = Except.ok newLayer)
    (hi : i < layer.length)
    (hflag : flaggedPred cfg (layer.get ⟨i, hi⟩) = false) :
    newLayer[i]? = some (layer.get ⟨i, hi⟩) ∧
    layer.get ⟨i, hi⟩ ∉ layer.filter (flaggedPred cfg) := by
  have hmap := layerPass_eq_map cfg pt layer newLayer env hu h1 h2 hp
  subst hmap
  have hflag' : flaggedPred cfg layer[i] = false := by simpa using hflag
  constructor
  · rw [List.getElem?_map, List.getElem?_eq_getElem hi]
    simp [passResult, hflag']
  · intro hmem
    have hflagt := (List.mem_filter.mp hmem).2
    rw [hflag] at hflagt
    cases hflagt

/-- C7 witness: a record with flag "N" passes through unchanged. -/
theorem C7_unflagged_untouched_witness :
    ([rowN] : List Feature)[0]? = some rowN ∧
    rowN ∉ [rowN].filter (flaggedPred cfgA) :=
  C7_unflagged_untouched cfgA ptA [rowN] [rowN] envCreate77 0
    (by decide) (by decide) (by decide) rfl (by decide) rfl

theorem submit_warning_of_bad (r : Feature) (m : List (String × Int))
    (fields : List (String × String)) (oid : Value) (tf : String × String)
    (cr : List (String × Value) → Option Value) (v : Value)
    (hattr : lookupD r.attributes tf.2 = some v)
    (hbad : problemTypeBad m v = true) :
    ∃ w, submit_to_cw r (PTResult.dict m) fields oid tf cr =
      Except.ok (Value.str w) ∧ strContains w "WARNING" = true := by
  cases v with
  | str s =>
    have hnone : lookupD m (pyUpper s) = none := by
      simpa [problemTypeBad, Option.isNone_iff_eq_none] using hbad
    by_cases hblank : pyStrip s = ""
    · refine ⟨"WARNING: No problem type provided. Record " ++ pyStr oid
        ++ " not exported.\n", ?_, ?_⟩
      · simp [submit_to_cw, hattr, hnone, hblank]
      · exact strContains_append_left _ _ _
          (strContains_append_left _ _ _ (by decide))
    · refine ⟨"WARNING: Problem type " ++ s
        ++ " not found in Cityworks. Record " ++ pyStr oid
        ++ " not exported.\n", ?_, ?_⟩
      · simp [submit_to_cw, hattr, hnone, hblank]
      · exact strContains_append_left _ _ _ (strContains_append_left _ _ _
          (strContains_append_left _ _ _ (strContains_append_left _ _ _
            (by decide))))
  | num n =>
    refine ⟨"WARNING: Record " ++ pyStr oid
      ++ " not exported due to missing value in field " ++ tf.2 ++ "\n",
      ?_, ?_⟩
    · simp [submit_to_cw, hattr]
    · exact strContains_append_left _ _ _ (strContains_append_left _ _ _
        (strContains_append_left _ _ _ (strContains_append_left _ _ _
          (by decide))))
  | null =>
    refine ⟨"WARNING: Record " ++ pyStr oid
      ++ " not exported due to missing value in field " ++ tf.2 ++ "\n",
      ?_, ?_⟩
    · simp [submit_to_cw, hattr]
    · exact strContains_append_left _ _ _ (strContains_append_left _ _ _
        (strContains_append_left _ _ _ (strContains_append_left _ _ _
          (by decide))))

/-- C3: a flagged record whose problem-type attribute is null (absent
value), non-string, or a string that does not resolve in the vocabulary
(which covers blank) makes the mapper return a `WARNING` result whatever
the external endpoint would answer — so the `Create` call is never
reached — and the pass leaves the record untouched: no write-back, flag
still at the "on" sentinel. -/
theorem C3_bad_problem_type_skipped (cfg : Config) (m : List (String × Int))
    (layer newLayer : List Feature) (env : Feature → RecEnv) (i : Nat)
    (v : Value)
    (hu : UniqueOids cfg.oid_fld layer)
    (h1 : cfg.oid_fld ≠ cfg.fc_flag) (h2 : cfg.oid_fld ≠ cfg.ids.2)
    (hp : layerPass cfg (PTResult.dict m) layer env = Except.ok newLayer)
    (hi : i < layer.length)
    (hflag : flaggedPred cfg (layer.get ⟨i, hi⟩) = true)
    (hattr : lookupD (layer.get ⟨i, hi⟩).attributes cfg.probtypes.2 = some v)
    (hbad : problemTypeBad m v = true) :
    (∀ oid cr, ∃ w, submit_to_cw (layer.get ⟨i, hi⟩) (PTResult.dict m)
      cfg.layerfields oid cfg.probtypes cr = Except.ok (Value.str w) ∧
      strContains w "WARNING" = true) ∧
    newLayer[i]? = some (layer.get ⟨i, hi⟩) ∧
    lookupD (layer.get ⟨i, hi⟩).attributes cfg.fc_flag =
      some (Value.str cfg.flagOn) := by
  have hrmem : layer.get ⟨i, hi⟩ ∈ layer := List.get_mem layer i hi
  have hwarn : ∀ oid cr, ∃ w, submit_to_cw (layer.get ⟨i, hi⟩)
      (PTResult.dict m) cfg.layerfields oid cfg.probtypes cr =
      Except.ok (Value.str w) ∧ strContains w "WARNING" = true :=
    fun oid cr => submit_warning_of_bad (layer.get ⟨i, hi⟩) m cfg.layerfields
      oid cfg.probtypes cr v hattr hbad
  obtain ⟨res, hres⟩ : ∃ res, processRecord cfg (PTResult.dict m) layer env
      (layer.get ⟨i, hi⟩) = Except.ok res := by
    simp only [layerPass] at hp
    split at hp
    next => cases hp
    next updated hrows =>
      exact (processRows_ok cfg _ layer env _ updated hrows).2 _
        (List.mem_filter.mpr ⟨hrmem, hflag⟩)
  obtain ⟨oid, hoid⟩ : ∃ oid,
      lookupD (layer.get ⟨i, hi⟩).attributes cfg.oid_fld = some oid := by
    cases hlv : lookupD (layer.get ⟨i, hi⟩).attributes cfg.oid_fld with
    | none =>
      exfalso
      simp only [processRecord, hlv] at hres
      cases hres
    | some oid => exact ⟨oid, rfl⟩
  obtain ⟨w, hsubw, hw⟩ := hwarn oid (env (layer.get ⟨i, hi⟩)).createResp
  have hiw : isWarningVal (Value.str w) = true := by simp [isWarningVal, hw]
  have hoidE : lookupD layer[i].attributes cfg.oid_fld = some oid := hoid
  have hsubwE : submit_to_cw layer[i] (PTResult.dict m) cfg.layerfields oid
      cfg.probtypes (env layer[i]).createResp = Except.ok (Value.str w) :=
    hsubw
  have ho : outcomeFn cfg (PTResult.dict m) layer env layer[i] = none := by
    simp [outcomeFn, processRecord, hoidE, hsubwE, hiw]
  have hmap := layerPass_eq_map cfg (PTResult.dict m) layer newLayer env
    hu h1 h2 hp
  subst hmap
  have hflag' : flaggedPred cfg layer[i] = true := by simpa using hflag
  refine ⟨hwarn, ?_, of_decide_eq_true hflag⟩
  rw [List.getElem?_map, List.getElem?_eq_getElem hi]
  simp [passResult, hflag', ho]

/-- C3 witness: a flagged record with unknown problem type `sinkhole`
triggers a `WARNING` and survives the pass unchanged with flag "Y". -/
theorem C3_bad_problem_type_skipped_witness :
    (∃ w, submit_to_cw rowBadType (PTResult.dict [("POTHOLE", 42)])
      cfgA.layerfields (Value.num 3) cfgA.probtypes (fun _ => none) =
      Except.ok (Value.str w) ∧ strContains w "WARNING" = true) ∧
    ([rowBadType] : List Feature)[0]? = some rowBadType ∧
    lookupD rowBadType.attributes cfgA.fc_flag =
      some (Value.str cfgA.flagOn) := by
  obtain ⟨hwarn, hb, hc⟩ :=
    C3_bad_problem_type_skipped cfgA [("POTHOLE", 42)] [rowBadType]
      [rowBadType] envCreate77 0 (Value.str "sinkhole")
      (by decide) (by decide) (by decide) rfl (by decide) rfl rfl (by decide)
  exact ⟨hwarn (Value.num 3) (fun _ => none), hb, hc⟩

theorem layerPass_success_at (cfg : Config) (m : List (String × Int))
    (layer newLayer : List Feature) (env : Feature → RecEnv) (i : Nat)
    (s : String) (sid : Int) (rid : Value)
    (hu : UniqueOids cfg.oid_fld layer)
    (h1 : cfg.oid_fld ≠ cfg.fc_flag) (h2 : cfg.oid_fld ≠ cfg.ids.2)
    (hp : layerPass cfg (PTResult.dict m) layer env = Except.ok newLayer)
    (hi : i < layer.length)
    (hflag : flaggedPred cfg (layer.get ⟨i, hi⟩) = true)
    (hattr : lookupD (layer.get ⟨i, hi⟩).attributes cfg.probtypes.2 =
      some (Value.str s))
    (hsid : lookupD m (pyUpper s) = some sid)
    (hcr : (env (layer.get ⟨i, hi⟩)).createResp = fun _ => some rid)
    (hw : isWarningVal rid = false) :
    newLayer[i]? = some (updRow cfg (layer.get ⟨i, hi⟩) rid) := by
  have hrmem : layer.get ⟨i, hi⟩ ∈ layer := List.get_mem layer i hi
  obtain ⟨res, hres⟩ : ∃ res, processRecord cfg (PTResult.dict m) layer env
      (layer.get ⟨i, hi⟩) = Except.ok res := by
    simp only [layerPass] at hp
    split at hp
    next => cases hp
    next updated hrows =>
      exact (processRows_ok cfg _ layer env _ updated hrows).2 _
        (List.mem_filter.mpr ⟨hrmem, hflag⟩)
  obtain ⟨oid, hoid⟩ : ∃ oid,
      lookupD (layer.get ⟨i, hi⟩).attributes cfg.oid_fld = some oid := by
    cases hlv : lookupD (layer.get ⟨i, hi⟩).attributes cfg.oid_fld with
    | none =>
      exfalso
      simp only [processRecord, hlv] at hres
      cases hres
    | some oid => exact ⟨oid, rfl⟩
  have hoidE : lookupD layer[i].attributes cfg.oid_fld = some oid := hoid
  have hattrE : lookupD layer[i].attributes cfg.probtypes.2 =
      some (Value.str s) := hattr
  have hcrE : (env layer[i]).createResp = fun _ => some rid := hcr
  cases hpl : cw_payload (layer.get ⟨i, hi⟩) cfg.layerfields cfg.probtypes
      sid with
  | error e =>
    exfalso
    have hplE : cw_payload layer[i] cfg.layerfields cfg.probtypes sid =
        Except.error e := hpl
    have hsubr : submit_to_cw layer[i] (PTResult.dict m)
        cfg.layerfields oid cfg.probtypes
        (env layer[i]).createResp = Except.error e := by
      simp [submit_to_cw, hattrE, hsid, hplE]
    have hresE : processRecord cfg (PTResult.dict m) layer env layer[i] =
      Except.ok res := hres
    simp only [processRecord, hoidE, hsubr] at hresE
    cases hresE
  | ok pl =>
    have hplE : cw_payload layer[i] cfg.layerfields cfg.probtypes sid =
        Except.ok pl := hpl
    have hsub : submit_to_cw layer[i] (PTResult.dict m)
        cfg.layerfields oid cfg.probtypes
        (env layer[i]).createResp = Except.ok rid := by
      simp [submit_to_cw, hattrE, hsid, hplE, hcrE]
    have hq : queryByOid layer cfg.oid_fld oid = some (layer.get ⟨i, hi⟩) :=
      queryByOid_self cfg.oid_fld layer _ oid hu hrmem hoid
    have hqE : queryByOid layer cfg.oid_fld oid = some layer[i] := hq
    have ho : outcomeFn cfg (PTResult.dict m) layer env layer[i] =
        some (updRow cfg layer[i] rid) := by
      simp [outcomeFn, processRecord, hoidE, hsub, hw, hqE]
    have hmap := layerPass_eq_map cfg (PTResult.dict m) layer newLayer env
      hu h1 h2 hp
    subst hmap
    have hflag' : flaggedPred cfg layer[i] = true := by simpa using hflag
    rw [List.getElem?_map, List.getElem?_eq_getElem hi]
    simp [passResult, hflag', ho]

/-- C4: a flagged record whose problem type resolves and whose `Create`
call answers with request identifier `rid` ends the pass, after the batch
write-back, with its flag field at the "off" sentinel and its external-id
attribute equal to `rid`. -/
theorem C4_success_write_back (cfg : Config) (m : List (String × Int))
    (layer newLayer : List Feature) (env : Feature → RecEnv) (i : Nat)
    (s : String) (sid : Int) (rid : Value)
    (hu : UniqueOids cfg.oid_fld layer)
    (h1 : cfg.oid_fld ≠ cfg.fc_flag) (h2 : cfg.oid_fld ≠ cfg.ids.2)
    (h3 : cfg.fc_flag ≠ cfg.ids.2)
    (hp : layerPass cfg (PTResult.dict m) layer env = Except.ok newLayer)
    (hi : i < layer.length)
    (hflag : flaggedPred cfg (layer.get ⟨i, hi⟩) = true)
    (hattr : lookupD (layer.get ⟨i, hi⟩).attributes cfg.probtypes.2 =
      some (Value.str s))
    (hsid : lookupD m (pyUpper s) = some sid)
    (hcr : (env (layer.get ⟨i, hi⟩)).createResp = fun _ => some rid)
    (hw : isWarningVal rid = false) :
    ∃ u, newLayer[i]? = some u ∧
      lookupD u.attributes cfg.fc_flag = some (Value.str cfg.flagOff) ∧
      lookupD u.attributes cfg.ids.2 = some rid := by
  refine ⟨updRow cfg (layer.get ⟨i, hi⟩) rid,
    layerPass_success_at cfg m layer newLayer env i s sid rid
      hu h1 h2 hp hi hflag hattr hsid hcr hw, ?_, ?_⟩
  · simp only [updRow]
    rw [lookupD_dictSet_ne _ _ _ _ (Ne.symm h3)]
    exact lookupD_dictSet_self _ _ _
  · simp only [updRow]
    exact lookupD_dictSet_self _ _ _

/-- C4 witness: `rowA` submitted with request id 77 comes out with flag
"N" and `CWID = 77`. -/
theorem C4_success_write_back_witness :
    ∃ u, ([updRow cfgA rowA (Value.num 77)] : List Feature)[0]? = some u ∧
      lookupD u.attributes cfgA.fc_flag = some (Value.str cfgA.flagOff) ∧
      lookupD u.attributes cfgA.ids.2 = some (Value.num 77) :=
  C4_success_write_back cfgA [("POTHOLE", 42)] [rowA]
    [updRow cfgA rowA (Value.num 77)] envCreate77 0 "pothole" 42
    (Value.num 77) (by decide) (by decide) (by decide) (by decide) rfl
    (by decide) rfl rfl rfl rfl rfl

/-- C9: the update queued for a successfully submitted record changes
only the flag field and the external-id attribute of the freshly
re-queried record: its geometry and every other attribute are unchanged,
and the batch write-back keeps the layer's length (no record is ever
deleted). -/
theorem C9_write_back_frame (cfg : Config) (m : List (String × Int))
    (layer newLayer : List Feature) (env : Feature → RecEnv) (i : Nat)
    (s : String) (sid : Int) (rid : Value)
    (hu : UniqueOids cfg.oid_fld layer)
    (h1 : cfg.oid_fld ≠ cfg.fc_flag) (h2 : cfg.oid_fld ≠ cfg.ids.2)
    (hp : layerPass cfg (PTResult.dict m) layer env = Except.ok newLayer)
    (hi : i < layer.length)
    (hflag : flaggedPred cfg (layer.get ⟨i, hi⟩) = true)
    (hattr : lookupD (layer.get ⟨i, hi⟩).attributes cfg.probtypes.2 =
      some (Value.str s))
    (hsid : lookupD m (pyUpper s) = some sid)
    (hcr : (env (layer.get ⟨i, hi⟩)).createResp = fun _ => some rid)
    (hw : isWarningVal rid = false) :
    newLayer.length = layer.length ∧
    ∃ u, newLayer[i]? = some u ∧
      u.geometry = (layer.get ⟨i, hi⟩).geometry ∧
      ∀ f, f ≠ cfg.fc_flag → f ≠ cfg.ids.2 →
        lookupD u.attributes f = lookupD (layer.get ⟨i, hi⟩).attributes f := by
  have hmap := layerPass_eq_map cfg (PTResult.dict m) layer newLayer env
    hu h1 h2 hp
  refine ⟨by rw [hmap]; exact List.length_map layer _,
    updRow cfg (layer.get ⟨i, hi⟩) rid,
    layerPass_success_at cfg m layer newLayer env i s sid rid
      hu h1 h2 hp hi hflag hattr hsid hcr hw, rfl, ?_⟩
  intro f hf1 hf2
  simp only [updRow]
  rw [lookupD_dictSet_ne _ _ _ _ (Ne.symm hf2),
    lookupD_dictSet_ne _ _ _ _ (Ne.symm hf1)]

/-- C9 witness: the update for `rowA` keeps `OBJECTID`, `ptype`, `desc`
and the geometry, and the one-record layer keeps its length. -/
theorem C9_write_back_frame_witness :
    ([updRow cfgA rowA (Value.num 77)] : List Feature).length =
      ([rowA] : List Feature).length ∧
    ∃ u, ([updRow cfgA rowA (Value.num 77)] : List Feature)[0]? = some u ∧
      u.geometry = rowA.geometry ∧
      ∀ f, f ≠ cfgA.fc_flag → f ≠ cfgA.ids.2 →
        lookupD u.attributes f = lookupD rowA.attributes f :=
  C9_write_back_frame cfgA [("POTHOLE", 42)] [rowA]
    [updRow cfgA rowA (Value.num 77)] envCreate77 0 "pothole" 42
    (Value.num 77) (by decide) (by decide) (by decide) rfl (by decide)
    rfl rfl rfl rfl rfl

end CW
